import Mathlib

/-!
Shallow embedding of the tubely video upload handler (`src/api/videos.ts`).

The handler `handlerUploadVideo` is a straight-line orchestration: validate the
path parameter, authenticate, authorize against the record owner, validate the
uploaded file, write it to a temp path, probe its aspect ratio with ffprobe,
transcode with ffmpeg for fast start, upload to S3, update the record URL, and
delete both temp files.

External collaborators (auth, db lookup, form parsing, the two subprocesses,
S3, and the two `rm` calls) are modelled as request-scoped outcomes packaged
in an `Env`; the handler is then a pure function of the configuration and the
environment, returning the request result together with the list of side
effects it performed (temp writes, S3 puts, record updates, rm attempts), so
that effect-ordering properties can be stated.
-/

namespace Tubely

/-- Error taxonomy. `badRequest`, `unauthorized`, `forbidden`, `notFound`
mirror the error classes of `src/api/errors.ts`; `processing` stands for the
plain `Error` values thrown by the handler and its helpers (surfaced as
internal/server errors). -/
inductive ApiErr where
  | badRequest (msg : String)
  | unauthorized (msg : String)
  | forbidden (msg : String)
  | notFound (msg : String)
  | processing (msg : String)
deriving DecidableEq

/-- A video record: identifier, owning user identifier, nullable URL. -/
structure Video where
  id : String
  userID : String
  videoURL : Option String
deriving DecidableEq

/-- The uploaded form `File`: declared byte size (`file.size`) and declared
media type (`file.type`). -/
structure FileData where
  size : Nat
  type : String
deriving DecidableEq

/-- One entry of the probe output `streams` array: `width` and `height`.
JavaScript numbers from the parsed JSON are modelled as rationals. -/
structure Dim where
  width : ℚ
  height : ℚ
deriving DecidableEq

/-- The ffprobe standard output after `JSON.parse`: either parsing throws
(`unparseable`, carrying the parse error message), or it yields an object
whose `streams` field is absent/falsy (`object none`) or an array
(`object (some l)`). -/
inductive ProbeStdout where
  | unparseable (msg : String)
  | object (streams : Option (List Dim))
deriving DecidableEq

/-- Outcome of the ffprobe subprocess: exit code, parsed stdout, captured
stderr text. -/
structure ProbeResult where
  exitCode : Int
  stdout : ProbeStdout
  stderr : String
deriving DecidableEq

/-- Outcome of the ffmpeg subprocess: exit code and captured stderr text. -/
structure SpawnResult where
  exitCode : Int
  stderr : String
deriving DecidableEq

/-- The parts of `ApiConfig` the handler reads. -/
structure ApiConfig where
  s3Bucket : String
  s3Region : String
deriving DecidableEq

deriving instance DecidableEq for Except

/-- Request-scoped outcomes of all external collaborators, fixed before the
handler runs: the path parameter, the combined
`getBearerToken`/`validateJWT` result, the `getVideo` lookup, the form body
(`.error` if `req.formData()` throws, `.ok none` if the `video` field is
missing or not a `File`, `.ok (some f)` otherwise), the `Bun.write` outcome,
the two subprocess outcomes, the S3 upload outcome, and the two `rm`
outcomes. -/
structure Env where
  videoIdParam : Option String
  auth : Except ApiErr String
  lookup : Option Video
  formBody : Except String (Option FileData)
  tempWrite : Except String Unit
  probe : ProbeResult
  ffmpeg : SpawnResult
  s3Upload : Except String Unit
  rmOriginal : Except String Unit
  rmProcessed : Except String Unit
deriving DecidableEq

/-- The side effects performed by one request, in the order issued:
paths written by `Bun.write`, attempted S3 puts (key, local file path,
content type), `updateVideo` calls, and paths whose deletion was attempted. -/
structure Effects where
  tempWrites : List String
  s3Puts : List (String × String × String)
  recordUpdates : List Video
  rmAttempts : List String
deriving DecidableEq

/-- No side effects yet. -/
def emptyEffects : Effects := ⟨[], [], [], []⟩

/-- Lines 103-110 of `getVideoAspectRatio`: compute `width / height` and
classify into landscape / portrait / other with exclusive bounds. -/
def classifyAspect (width height : ℚ) : String :=
  let aspectRatio := width / height
  if aspectRatio > 1.7 ∧ aspectRatio < 1.8 then "landscape"
  else if aspectRatio > 0.5 ∧ aspectRatio < 0.6 then "portrait"
  else "other"

/-- `getVideoAspectRatio` (lines 70-111) as a function of the probe outcome:
non-zero exit throws `ffprobe error: <stderr>`; a falsy or empty `streams`
throws `No video streams found`; otherwise the first stream is classified. -/
def getVideoAspectRatio (probe : ProbeResult) : Except ApiErr String :=
  if probe.exitCode ≠ 0 then
    .error (.processing ("ffprobe error: " ++ probe.stderr))
  else
    match probe.stdout with
    | .unparseable msg => .error (.processing msg)
    | .object none => .error (.processing "No video streams found")
    | .object (some []) => .error (.processing "No video streams found")
    | .object (some (d :: _)) => .ok (classifyAspect d.width d.height)

/-- `processVideoForFastStart` (lines 113-142) as a function of the ffmpeg
outcome: the output path is the input path suffixed `.processed.mp4`;
non-zero exit throws `FFmpeg error: <stderr>`; success returns the output
path. -/
def processVideoForFastStart (inputFilePath : String) (proc : SpawnResult) :
    Except ApiErr String :=
  let processedFilePath := inputFilePath ++ ".processed.mp4"
  if proc.exitCode ≠ 0 then
    .error (.processing ("FFmpeg error: " ++ proc.stderr))
  else
    .ok processedFilePath

/-- `handlerUploadVideo` (lines 13-68). Returns the request result (`.ok`
is the 200 response carrying the updated record, `.error` a thrown error)
paired with the side effects performed. JavaScript notes reflected here:
`!videoId` is true for both an absent parameter and the empty string;
`MAX_UPLOAD_SIZE` is `1 << 30`; `path.join("/tmp", videoId + ".mp4")` is
`/tmp/<id>.mp4`; the final `Promise.all` starts both `rm` calls (so both
deletions are always attempted) and rejects — failing the request — if
either rejects (`force: true` only suppresses errors for missing paths). -/
def handlerUploadVideo (cfg : ApiConfig) (env : Env) :
    Except ApiErr Video × Effects :=
  let MAX_UPLOAD_SIZE : Nat := 1 <<< 30
  match env.videoIdParam with
  | none => (.error (.badRequest "Invalid video ID"), emptyEffects)
  | some videoId =>
    if videoId = "" then
      (.error (.badRequest "Invalid video ID"), emptyEffects)
    else
      match env.auth with
      | .error e => (.error e, emptyEffects)
      | .ok userID =>
        match env.lookup with
        | none => (.error (.notFound "Video not found"), emptyEffects)
        | some video =>
          if video.userID ≠ userID then
            (.error (.forbidden ("User: " ++ userID ++
              " is not authorized to update this video")), emptyEffects)
          else
            match env.formBody with
            | .error msg => (.error (.processing msg), emptyEffects)
            | .ok none =>
              (.error (.badRequest "Video file missing"), emptyEffects)
            | .ok (some file) =>
              if file.size > MAX_UPLOAD_SIZE then
                (.error (.badRequest
                  "Video file exceeds the maximum allowed size of 1GB"),
                 emptyEffects)
              else if file.type ≠ "video/mp4" then
                (.error (.badRequest "Invalid file type. Only MP4 allowed."),
                 emptyEffects)
              else
                let tempFilePath := "/tmp/" ++ videoId ++ ".mp4"
                let effWrite : Effects :=
                  { emptyEffects with tempWrites := [tempFilePath] }
                match env.tempWrite with
                | .error msg => (.error (.processing msg), effWrite)
                | .ok _ =>
                  match getVideoAspectRatio env.probe with
                  | .error e => (.error e, effWrite)
                  | .ok aspectRatio =>
                    match processVideoForFastStart tempFilePath env.ffmpeg with
                    | .error e => (.error e, effWrite)
                    | .ok processedFilePath =>
                      let key := aspectRatio ++ "/" ++ videoId ++ ".mp4"
                      let effUpload : Effects :=
                        { effWrite with
                            s3Puts := [(key, processedFilePath, "video/mp4")] }
                      match env.s3Upload with
                      | .error msg => (.error (.processing msg), effUpload)
                      | .ok _ =>
                        let videoURL := "https://" ++ cfg.s3Bucket ++ ".s3." ++
                          cfg.s3Region ++ ".amazonaws.com/" ++ key
                        let video2 := { video with videoURL := some videoURL }
                        let effUpdate : Effects :=
                          { effUpload with recordUpdates := [video2] }
                        let effRm : Effects :=
                          { effUpdate with
                              rmAttempts := [tempFilePath, processedFilePath] }
                        match env.rmOriginal, env.rmProcessed with
                        | .error msg, _ => (.error (.processing msg), effRm)
                        | .ok _, .error msg =>
                          (.error (.processing msg), effRm)
                        | .ok _, .ok _ => (.ok video2, effRm)

/-! ### Helper lemmas -/

/-- Every error produced by the probe helper is a `processing` error. -/
theorem getVideoAspectRatio_error_shape (pr : ProbeResult) (e : ApiErr)
    (h : getVideoAspectRatio pr = .error e) : ∃ m, e = .processing m := by
  unfold getVideoAspectRatio at h
  repeat' split at h
  all_goals first
  | exact ⟨_, (Except.error.inj h).symm⟩
  | simp_all

/-- Every error produced by the transcode helper is a `processing` error. -/
theorem processVideoForFastStart_error_shape (p : String) (proc : SpawnResult)
    (e : ApiErr) (h : processVideoForFastStart p proc = .error e) :
    ∃ m, e = .processing m := by
  unfold processVideoForFastStart at h
  split at h
  all_goals first
  | exact ⟨_, (Except.error.inj h).symm⟩
  | simp_all

/-- The general classification trichotomy behind claim C2. -/
theorem classifyAspect_spec (w h : ℚ) :
    (classifyAspect w h = "landscape" ↔ 1.7 < w / h ∧ w / h < 1.8)
    ∧ (classifyAspect w h = "portrait" ↔ 0.5 < w / h ∧ w / h < 0.6)
    ∧ (classifyAspect w h = "other" ↔
        ¬(1.7 < w / h ∧ w / h < 1.8) ∧ ¬(0.5 < w / h ∧ w / h < 0.6)) := by
  simp only [classifyAspect, gt_iff_lt]
  split_ifs with h1 h2
  · refine ⟨iff_of_true rfl h1, iff_of_false (by decide) ?_,
      iff_of_false (by decide) ?_⟩
    · rintro ⟨a, b⟩
      have := h1.1
      linarith
    · rintro ⟨hn, _⟩
      exact hn h1
  · exact ⟨iff_of_false (by decide) fun hc => h1 hc, iff_of_true rfl h2,
      iff_of_false (by decide) fun hp => hp.2 h2⟩
  · exact ⟨iff_of_false (by decide) h1, iff_of_false (by decide) h2,
      iff_of_true rfl ⟨h1, h2⟩⟩

/-- Seventeen tenths is the decimal 1.7 in ℚ. -/
theorem seventeen_tenths : (17 : ℚ) / 10 = 1.7 := by norm_num

/-- Eighteen tenths is the decimal 1.8 in ℚ. -/
theorem eighteen_tenths : (18 : ℚ) / 10 = 1.8 := by norm_num

/-! ### Claims about the helper procedures -/

/-- C2: Aspect classification is a pure function of (width, height): it
returns "landscape" iff width/height lies strictly between 1.7 and 1.8,
"portrait" iff width/height lies strictly between 0.5 and 0.6, and "other"
otherwise; (1920,1080) yields "landscape", (1080,1920) yields "portrait",
(1000,1000) yields "other", and a ratio exactly equal to 1.7 or 1.8 yields
"other". -/
theorem c2_aspect_classification :
    (∀ w h : ℚ,
      (classifyAspect w h = "landscape" ↔ 1.7 < w / h ∧ w / h < 1.8)
      ∧ (classifyAspect w h = "portrait" ↔ 0.5 < w / h ∧ w / h < 0.6)
      ∧ (classifyAspect w h = "other" ↔
          ¬(1.7 < w / h ∧ w / h < 1.8) ∧ ¬(0.5 < w / h ∧ w / h < 0.6)))
    ∧ classifyAspect 1920 1080 = "landscape"
    ∧ classifyAspect 1080 1920 = "portrait"
    ∧ classifyAspect 1000 1000 = "other"
    ∧ (∀ w h : ℚ, w / h = 1.7 ∨ w / h = 1.8 → classifyAspect w h = "other") := by
  refine ⟨classifyAspect_spec, by norm_num [classifyAspect],
    by norm_num [classifyAspect], by norm_num [classifyAspect], ?_⟩
  intro w h hr
  refine (classifyAspect_spec w h).2.2.mpr ⟨?_, ?_⟩
  · rintro ⟨h1, h2⟩
    rcases hr with h0 | h0 <;> rw [h0] at h1 h2 <;> norm_num at h1 h2
  · rintro ⟨h1, h2⟩
    rcases hr with h0 | h0 <;> rw [h0] at h1 h2 <;> norm_num at h1 h2

/-- C2 witness: ratios exactly 1.7 and 1.8 both classify as "other". -/
theorem c2_aspect_classification_witness :
    classifyAspect 17 10 = "other" ∧ classifyAspect 18 10 = "other" :=
  ⟨c2_aspect_classification.2.2.2.2 17 10 (Or.inl seventeen_tenths),
   c2_aspect_classification.2.2.2.2 18 10 (Or.inr eighteen_tenths)⟩

/-- C6 (amended): the probe fails with a processing error whenever the
subprocess exits non-zero, and the message contains the captured stderr
text; on zero exit with parseable output containing zero streams it fails
with a processing error whose message is "No video streams found" (the code
capitalizes the first word; the claim quoted "no video streams found"). -/
theorem c6_probe_errors :
    (∀ probe : ProbeResult, probe.exitCode ≠ 0 →
      ∃ msg, getVideoAspectRatio probe = .error (.processing msg) ∧
        ∃ pre post, msg = pre ++ probe.stderr ++ post)
    ∧ (∀ s : String,
        getVideoAspectRatio ⟨0, .object (some []), s⟩ =
          .error (.processing "No video streams found")) := by
  constructor
  · intro probe hne
    refine ⟨"ffprobe error: " ++ probe.stderr, by simp [ getVideoAspectRatio, hne],
      "ffprobe error: ", "", ?_⟩
    simp
  · intro s
    simp [ getVideoAspectRatio]

/-- C6 witness: exit code 2 with stderr "bad file" yields a processing error
whose message contains "bad file". -/
theorem c6_probe_errors_witness :
    ∃ msg, getVideoAspectRatio ⟨2, .object (some []), "bad file"⟩ =
        .error (.processing msg) ∧
      ∃ pre post, msg = pre ++ "bad file" ++ post :=
  c6_probe_errors.1 ⟨2, .object (some []), "bad file"⟩ (by decide)

/-- C6 counterexample: on zero exit with zero streams the thrown message is
"No video streams found", not the claimed "no video streams found". -/
theorem c6_original_counterexample :
    getVideoAspectRatio ⟨0, .object (some []), ""⟩ ≠
      .error (.processing "no video streams found")
    ∧ getVideoAspectRatio ⟨0, .object (some []), ""⟩ =
      .error (.processing "No video streams found") := by
  constructor <;> decide

/-- C8: the fast-start transcode writes to the input path suffixed
".processed.mp4"; non-zero exit fails with a processing error whose message
contains the captured stderr text; success returns exactly the output
path. -/
theorem c8_fast_start (inputFilePath : String) (proc : SpawnResult) :
    (proc.exitCode = 0 →
      processVideoForFastStart inputFilePath proc =
        .ok (inputFilePath ++ ".processed.mp4"))
    ∧ (proc.exitCode ≠ 0 →
        ∃ msg, processVideoForFastStart inputFilePath proc =
            .error (.processing msg) ∧
          ∃ pre post, msg = pre ++ proc.stderr ++ post) := by
  constructor
  · intro hz
    simp [processVideoForFastStart, hz]
  · intro hne
    refine ⟨"FFmpeg error: " ++ proc.stderr,
      by simp [processVideoForFastStart, hne], "FFmpeg error: ", "", ?_⟩
    simp

/-- C8 witness: concrete success and failure runs of the transcode step. -/
theorem c8_fast_start_witness :
    processVideoForFastStart "/tmp/a.mp4" ⟨0, ""⟩ = .ok "/tmp/a.mp4.processed.mp4"
    ∧ ∃ msg, processVideoForFastStart "/tmp/a.mp4" ⟨1, "boom"⟩ =
        .error (.processing msg) ∧
      ∃ pre post, msg = pre ++ "boom" ++ post :=
  ⟨(c8_fast_start "/tmp/a.mp4" ⟨0, ""⟩).1 rfl,
   (c8_fast_start "/tmp/a.mp4" ⟨1, "boom"⟩).2 (by decide)⟩

/-- C10: a zero-exit probe whose parsed output has no "streams" field at all
fails exactly like the empty-streams case, with "No video streams found". -/
theorem c10_missing_streams_field (s : String) :
    getVideoAspectRatio ⟨0, .object none, s⟩ =
      .error (.processing "No video streams found")
    ∧ getVideoAspectRatio ⟨0, .object none, s⟩ =
      getVideoAspectRatio ⟨0, .object (some []), s⟩ := by
  constructor <;> simp [ getVideoAspectRatio]

/-! ### Concrete request environments for witnesses and counterexamples -/

/-- A sample configuration. -/
def cfg0 : ApiConfig := ⟨"tubely-bucket", "us-east-1"⟩

/-- An all-success request: valid owner "alice", a 50 MB mp4, a 1920x1080
probe result, successful subprocesses, upload, and deletions. -/
def successEnv : Env :=
  { videoIdParam := some "vid1"
    auth := .ok "alice"
    lookup := some ⟨"vid1", "alice", none⟩
    formBody := .ok (some ⟨52428800, "video/mp4"⟩)
    tempWrite := .ok ()
    probe := ⟨0, .object (some [⟨1920, 1080⟩]), ""⟩
    ffmpeg := ⟨0, ""⟩
    s3Upload := .ok ()
    rmOriginal := .ok ()
    rmProcessed := .ok () }

/-- The all-success request, except deleting the original temp file fails. -/
def rmFailEnv : Env :=
  { successEnv with rmOriginal := .error "EACCES: permission denied" }

/-- The all-success request, except deleting the processed file fails. -/
def rmFailEnv2 : Env := { successEnv with rmProcessed := .error "rm failed" }

/-- The probe of the all-success request classifies as landscape. -/
theorem probe_landscape :
    getVideoAspectRatio successEnv.probe = .ok "landscape" := by
  norm_num [ getVideoAspectRatio, classifyAspect, successEnv]

/-- Full evaluation of the request whose original-file deletion fails: the
record was already updated, yet the request fails with the deletion error. -/
theorem rmFailEnv_eval :
    handlerUploadVideo cfg0 rmFailEnv =
      (.error (.processing "EACCES: permission denied"),
       ⟨["/tmp/vid1.mp4"],
        [("landscape/vid1.mp4", "/tmp/vid1.mp4.processed.mp4", "video/mp4")],
        [⟨"vid1", "alice",
          some "https://tubely-bucket.s3.us-east-1.amazonaws.com/landscape/vid1.mp4"⟩],
        ["/tmp/vid1.mp4", "/tmp/vid1.mp4.processed.mp4"]⟩) := by
  norm_num [handlerUploadVideo, getVideoAspectRatio, processVideoForFastStart,
    classifyAspect, rmFailEnv, successEnv, cfg0, emptyEffects]
  decide

/-- Full evaluation of the request whose processed-file deletion fails. -/
theorem rmFailEnv2_eval :
    handlerUploadVideo cfg0 rmFailEnv2 =
      (.error (.processing "rm failed"),
       ⟨["/tmp/vid1.mp4"],
        [("landscape/vid1.mp4", "/tmp/vid1.mp4.processed.mp4", "video/mp4")],
        [⟨"vid1", "alice",
          some "https://tubely-bucket.s3.us-east-1.amazonaws.com/landscape/vid1.mp4"⟩],
        ["/tmp/vid1.mp4", "/tmp/vid1.mp4.processed.mp4"]⟩) := by
  norm_num [handlerUploadVideo, getVideoAspectRatio, processVideoForFastStart,
    classifyAspect, rmFailEnv2, successEnv, cfg0, emptyEffects]
  decide

/-! ### Claims about the handler -/

/-- C1 (amended): the record is updated only with the upload to storage
already performed and only when the authenticated identity equals the
record's owner; a failing request leaves the record's URL unchanged unless
the failure is a temp-file deletion error, which is raised after the record
was already updated. -/
theorem c1_url_update_guard (cfg : ApiConfig) (env : Env) :
    ((handlerUploadVideo cfg env).2.recordUpdates ≠ [] →
      env.s3Upload = .ok () ∧ (handlerUploadVideo cfg env).2.s3Puts ≠ [] ∧
      ∃ uid video, env.auth = .ok uid ∧ env.lookup = some video ∧
        video.userID = uid)
    ∧ (∀ e, (handlerUploadVideo cfg env).1 = .error e →
        (handlerUploadVideo cfg env).2.recordUpdates = [] ∨
        (∃ msg, env.rmOriginal = .error msg) ∨
        (∃ msg, env.rmProcessed = .error msg)) := by
  obtain ⟨p, a, l, f, tw, pr, ff, s3, r1, r2⟩ := env
  simp only [handlerUploadVideo]
  repeat' split
  all_goals simp_all [emptyEffects]

/-- C1 witness: the guard applied to the request whose original-file
deletion fails after the record update. -/
theorem c1_url_update_guard_witness :
    (rmFailEnv.s3Upload = .ok () ∧
      (handlerUploadVideo cfg0 rmFailEnv).2.s3Puts ≠ [] ∧
      ∃ uid video, rmFailEnv.auth = .ok uid ∧ rmFailEnv.lookup = some video ∧
        video.userID = uid)
    ∧ ((handlerUploadVideo cfg0 rmFailEnv).2.recordUpdates = [] ∨
       (∃ msg, rmFailEnv.rmOriginal = .error msg) ∨
       (∃ msg, rmFailEnv.rmProcessed = .error msg)) :=
  ⟨(c1_url_update_guard cfg0 rmFailEnv).1 (by simp [rmFailEnv_eval]),
   (c1_url_update_guard cfg0 rmFailEnv).2
     (.processing "EACCES: permission denied") (by simp [rmFailEnv_eval])⟩

/-- C1 counterexample: a request that fails (with the deletion error) after
the record's URL field was already mutated, contradicting "on every failing
request the record's URL field is left unchanged". -/
theorem c1_original_counterexample :
    (handlerUploadVideo cfg0 rmFailEnv).1 =
      .error (.processing "EACCES: permission denied")
    ∧ (handlerUploadVideo cfg0 rmFailEnv).2.recordUpdates =
      [⟨"vid1", "alice",
        some "https://tubely-bucket.s3.us-east-1.amazonaws.com/landscape/vid1.mp4"⟩] := by
  simp [rmFailEnv_eval]

/-- C3 (amended): a request that reaches cleanup attempts both deletions,
whatever their outcomes; if both succeed the request succeeds, but a failure
of either deletion is surfaced as the request's error. -/
theorem c3_cleanup_attempts (cfg : ApiConfig) (env : Env) (vid uid : String)
    (video : Video) (file : FileData) (cls : String)
    (hp : env.videoIdParam = some vid) (hv : vid ≠ "")
    (ha : env.auth = .ok uid) (hl : env.lookup = some video)
    (ho : video.userID = uid) (hf : env.formBody = .ok (some file))
    (hsz : file.size ≤ 2 ^ 30) (hty : file.type = "video/mp4")
    (htw : env.tempWrite = .ok ())
    (hpr : getVideoAspectRatio env.probe = .ok cls)
    (hff : env.ffmpeg.exitCode = 0) (hs3 : env.s3Upload = .ok ()) :
    (handlerUploadVideo cfg env).2.rmAttempts =
      ["/tmp/" ++ vid ++ ".mp4", "/tmp/" ++ vid ++ ".mp4" ++ ".processed.mp4"]
    ∧ (env.rmOriginal = .ok () → env.rmProcessed = .ok () →
        ∃ v, (handlerUploadVideo cfg env).1 = .ok v)
    ∧ (∀ msg, env.rmOriginal = .error msg →
        (handlerUploadVideo cfg env).1 = .error (.processing msg))
    ∧ (∀ msg, env.rmOriginal = .ok () → env.rmProcessed = .error msg →
        (handlerUploadVideo cfg env).1 = .error (.processing msg)) := by
  obtain ⟨p, a, l, f, tw, pr, ff, s3, r1, r2⟩ := env
  simp only at hp ha hl hf htw hpr hff hs3
  subst hp ha hl hf htw hs3
  have hle : ¬ ((1073741824 : Nat) < file.size) := by
    have h2 : (2 : Nat) ^ 30 = 1073741824 := by norm_num
    omega
  rcases r1 with m1 | u1 <;> rcases r2 with m2 | u2 <;>
    refine ⟨?_, ?_, ?_, ?_⟩ <;>
    simp [handlerUploadVideo, processVideoForFastStart, hv, ho, hle, hty,
      hpr, hff]

/-- C3 witness: for the request whose processed-file deletion fails, both
deletions are attempted and the deletion error becomes the request error. -/
theorem c3_cleanup_attempts_witness :
    (handlerUploadVideo cfg0 rmFailEnv2).2.rmAttempts =
      ["/tmp/vid1.mp4", "/tmp/vid1.mp4.processed.mp4"]
    ∧ (handlerUploadVideo cfg0 rmFailEnv2).1 = .error (.processing "rm failed") :=
  ⟨(c3_cleanup_attempts cfg0 rmFailEnv2 "vid1" "alice" ⟨"vid1", "alice", none⟩
      ⟨52428800, "video/mp4"⟩ "landscape" rfl (by decide) rfl rfl rfl rfl
      (by decide) rfl rfl probe_landscape rfl rfl).1,
   (c3_cleanup_attempts cfg0 rmFailEnv2 "vid1" "alice" ⟨"vid1", "alice", none⟩
      ⟨52428800, "video/mp4"⟩ "landscape" rfl (by decide) rfl rfl rfl rfl
      (by decide) rfl rfl probe_landscape rfl rfl).2.2.2 "rm failed" rfl rfl⟩

/-- C3 counterexample: a deletion failure on the success path is surfaced as
a request error, contradicting "a failure to delete either file is not
surfaced as a request error". -/
theorem c3_original_counterexample :
    rmFailEnv2.rmProcessed = .error "rm failed"
    ∧ (handlerUploadVideo cfg0 rmFailEnv2).1 =
      .error (.processing "rm failed") := by
  exact ⟨rfl, by simp [rmFailEnv2_eval]⟩

/-- C4: an upload is rejected with BadRequest iff its declared size exceeds
2^30 bytes (sizes at or below the limit pass the size check), and the
rejection happens with no side effects, in particular before any temp file
write. -/
theorem c4_size_limit (cfg : ApiConfig) (env : Env) (vid uid : String)
    (video : Video) (file : FileData)
    (hp : env.videoIdParam = some vid) (hv : vid ≠ "")
    (ha : env.auth = .ok uid) (hl : env.lookup = some video)
    (ho : video.userID = uid) (hf : env.formBody = .ok (some file)) :
    (2 ^ 30 < file.size →
      handlerUploadVideo cfg env =
        (.error (.badRequest "Video file exceeds the maximum allowed size of 1GB"),
         emptyEffects))
    ∧ (file.size ≤ 2 ^ 30 →
        (handlerUploadVideo cfg env).1 ≠
          .error (.badRequest "Video file exceeds the maximum allowed size of 1GB")) := by
  obtain ⟨p, a, l, f, tw, pr, ff, s3, r1, r2⟩ := env
  simp only at hp ha hl hf
  subst hp ha hl hf
  constructor
  · intro hsz
    have hgt : (1073741824 : Nat) < file.size := by
      have h2 : (2 : Nat) ^ 30 = 1073741824 := by norm_num
      omega
    simp [handlerUploadVideo, hv, ho, hgt]
  · intro hsz
    have hle : ¬ ((1073741824 : Nat) < file.size) := by
      have h2 : (2 : Nat) ^ 30 = 1073741824 := by norm_num
      omega
    by_cases hty : file.type = "video/mp4"
    · rcases tw with m | u
      · simp [handlerUploadVideo, hv, ho, hle, hty]
      · rcases hq : getVideoAspectRatio pr with e1 | cls
        · obtain ⟨m, rfl⟩ := getVideoAspectRatio_error_shape pr e1 hq
          simp [handlerUploadVideo, hv, ho, hle, hty, hq]
        · rcases hw : processVideoForFastStart ("/tmp/" ++ vid ++ ".mp4") ff
            with e2 | pp
          · obtain ⟨m, rfl⟩ := processVideoForFastStart_error_shape _ _ _ hw
            simp [handlerUploadVideo, hv, ho, hle, hty, hq, hw]
          · rcases s3 with m | u2
            · simp [handlerUploadVideo, hv, ho, hle, hty, hq, hw]
            · rcases r1 with m | u3
              · simp [handlerUploadVideo, hv, ho, hle, hty, hq, hw]
              · rcases r2 with m | u4 <;>
                  simp [handlerUploadVideo, hv, ho, hle, hty, hq, hw]
    · intro hEq
      simp [handlerUploadVideo, hv, ho, hle, hty] at hEq

/-- C4 witness: a 2^30 + 1 byte file is rejected with no effects; the 50 MB
file of the all-success request is not rejected for size. -/
theorem c4_size_limit_witness :
    handlerUploadVideo cfg0
        { successEnv with formBody := .ok (some ⟨1073741825, "video/mp4"⟩) } =
      (.error (.badRequest "Video file exceeds the maximum allowed size of 1GB"),
       emptyEffects)
    ∧ (handlerUploadVideo cfg0 successEnv).1 ≠
      .error (.badRequest "Video file exceeds the maximum allowed size of 1GB") :=
  ⟨(c4_size_limit cfg0
      { successEnv with formBody := .ok (some ⟨1073741825, "video/mp4"⟩) }
      "vid1" "alice" ⟨"vid1", "alice", none⟩ ⟨1073741825, "video/mp4"⟩
      rfl (by decide) rfl rfl rfl rfl).1 (by decide),
   (c4_size_limit cfg0 successEnv "vid1" "alice" ⟨"vid1", "alice", none⟩
      ⟨52428800, "video/mp4"⟩ rfl (by decide) rfl rfl rfl rfl).2 (by decide)⟩

/-- C5: when the authenticated identity differs from the record's owner the
request fails with Forbidden, with no temp file write, no object-storage
write, and no record mutation. -/
theorem c5_forbidden_guard (cfg : ApiConfig) (env : Env) (vid uid : String)
    (video : Video)
    (hp : env.videoIdParam = some vid) (hv : vid ≠ "")
    (ha : env.auth = .ok uid) (hl : env.lookup = some video)
    (hne : video.userID ≠ uid) :
    handlerUploadVideo cfg env =
      (.error (.forbidden
        ("User: " ++ uid ++ " is not authorized to update this video")),
       emptyEffects)
    ∧ (handlerUploadVideo cfg env).2.tempWrites = []
    ∧ (handlerUploadVideo cfg env).2.s3Puts = []
    ∧ (handlerUploadVideo cfg env).2.recordUpdates = [] := by
  obtain ⟨p, a, l, f, tw, pr, ff, s3, r1, r2⟩ := env
  simp only at hp ha hl
  subst hp ha hl
  refine ⟨?_, ?_, ?_, ?_⟩ <;> simp [handlerUploadVideo, hv, hne, emptyEffects]

/-- C5 witness: "alice" may not update a record owned by "bob". -/
theorem c5_forbidden_guard_witness :
    handlerUploadVideo cfg0
        { successEnv with lookup := some ⟨"vid1", "bob", none⟩ } =
      (.error (.forbidden "User: alice is not authorized to update this video"),
       emptyEffects)
    ∧ (handlerUploadVideo cfg0
        { successEnv with lookup := some ⟨"vid1", "bob", none⟩ }).2.tempWrites = []
    ∧ (handlerUploadVideo cfg0
        { successEnv with lookup := some ⟨"vid1", "bob", none⟩ }).2.s3Puts = []
    ∧ (handlerUploadVideo cfg0
        { successEnv with lookup := some ⟨"vid1", "bob", none⟩ }).2.recordUpdates = [] :=
  c5_forbidden_guard cfg0
    { successEnv with lookup := some ⟨"vid1", "bob", none⟩ }
    "vid1" "alice" ⟨"vid1", "bob", none⟩ rfl (by decide) rfl rfl (by decide)

/-- C7: on a successful upload the storage key is
`classification/videoId.mp4` and the URL written to the record — and
returned in the 200 response body — is
`https://bucket.s3.region.amazonaws.com/key`. -/
theorem c7_key_and_url (cfg : ApiConfig) (env : Env) (vid uid : String)
    (video : Video) (file : FileData) (cls : String)
    (hp : env.videoIdParam = some vid) (hv : vid ≠ "")
    (ha : env.auth = .ok uid) (hl : env.lookup = some video)
    (ho : video.userID = uid) (hf : env.formBody = .ok (some file))
    (hsz : file.size ≤ 2 ^ 30) (hty : file.type = "video/mp4")
    (htw : env.tempWrite = .ok ())
    (hpr : getVideoAspectRatio env.probe = .ok cls)
    (hff : env.ffmpeg.exitCode = 0) (hs3 : env.s3Upload = .ok ())
    (hr1 : env.rmOriginal = .ok ()) (hr2 : env.rmProcessed = .ok ()) :
    handlerUploadVideo cfg env =
      (.ok { video with videoURL := some ("https://" ++ cfg.s3Bucket ++
          ".s3." ++ cfg.s3Region ++ ".amazonaws.com/" ++
          (cls ++ "/" ++ vid ++ ".mp4")) },
       { tempWrites := ["/tmp/" ++ vid ++ ".mp4"]
         s3Puts := [(cls ++ "/" ++ vid ++ ".mp4",
           "/tmp/" ++ vid ++ ".mp4" ++ ".processed.mp4", "video/mp4")]
         recordUpdates := [{ video with videoURL := some ("https://" ++
           cfg.s3Bucket ++ ".s3." ++ cfg.s3Region ++ ".amazonaws.com/" ++
           (cls ++ "/" ++ vid ++ ".mp4")) }]
         rmAttempts := ["/tmp/" ++ vid ++ ".mp4",
           "/tmp/" ++ vid ++ ".mp4" ++ ".processed.mp4"] }) := by
  obtain ⟨p, a, l, f, tw, pr, ff, s3, r1, r2⟩ := env
  simp only at hp ha hl hf htw hpr hff hs3 hr1 hr2
  subst hp ha hl hf htw hs3 hr1 hr2
  have hle : ¬ ((1073741824 : Nat) < file.size) := by
    have h2 : (2 : Nat) ^ 30 = 1073741824 := by norm_num
    omega
  simp [handlerUploadVideo, processVideoForFastStart, hv, ho, hle, hty,
    hpr, hff]

/-- C7 witness: the all-success request yields the landscape key and URL. -/
theorem c7_key_and_url_witness :
    handlerUploadVideo cfg0 successEnv =
      (.ok ⟨"vid1", "alice",
        some "https://tubely-bucket.s3.us-east-1.amazonaws.com/landscape/vid1.mp4"⟩,
       ⟨["/tmp/vid1.mp4"],
        [("landscape/vid1.mp4", "/tmp/vid1.mp4.processed.mp4", "video/mp4")],
        [⟨"vid1", "alice",
          some "https://tubely-bucket.s3.us-east-1.amazonaws.com/landscape/vid1.mp4"⟩],
        ["/tmp/vid1.mp4", "/tmp/vid1.mp4.processed.mp4"]⟩) :=
  c7_key_and_url cfg0 successEnv "vid1" "alice" ⟨"vid1", "alice", none⟩
    ⟨52428800, "video/mp4"⟩ "landscape" rfl (by decide) rfl rfl rfl rfl
    (by decide) rfl rfl probe_landscape rfl rfl rfl rfl

/-- C9: a present-but-empty video id is rejected with BadRequest exactly
like an absent one, with no side effects and regardless of every other
collaborator outcome (so before authentication or lookup). -/
theorem c9_empty_video_id (cfg : ApiConfig) (env env2 : Env)
    (h : env.videoIdParam = some "") (h2 : env2.videoIdParam = none) :
    handlerUploadVideo cfg env =
      (.error (.badRequest "Invalid video ID"), emptyEffects)
    ∧ handlerUploadVideo cfg env = handlerUploadVideo cfg env2 := by
  obtain ⟨p, a, l, f, tw, pr, ff, s3, r1, r2⟩ := env
  obtain ⟨p2, a2, l2, f2, tw2, pr2, ff2, s32, r12, r22⟩ := env2
  simp only at h h2
  subst h h2
  constructor <;> simp [handlerUploadVideo]

/-- C9 witness: the all-success request with an empty (resp. absent) video
id parameter. -/
theorem c9_empty_video_id_witness :
    handlerUploadVideo cfg0 { successEnv with videoIdParam := some "" } =
      (.error (.badRequest "Invalid video ID"), emptyEffects)
    ∧ handlerUploadVideo cfg0 { successEnv with videoIdParam := some "" } =
      handlerUploadVideo cfg0 { successEnv with videoIdParam := none } :=
  c9_empty_video_id cfg0 { successEnv with videoIdParam := some "" }
    { successEnv with videoIdParam := none } rfl rfl

end Tubely
